import Mathlib

/-!
Verification of the nucypher policy-enactment orchestration
(`nucypher/policy/policies.py`) and the external-IP cascade
(`nucypher/utilities/networking.py`) against its natural-language
specification.

The Python source is shallowly embedded: pure fragments become Lean
functions, effectful calls (network middleware, signature verification,
random sampling) become explicit parameters carrying the outcome the
effect would have produced, Python exceptions become `Except` errors, and
Python's arbitrary-precision integers become `Int` (with `Int.fdiv` for
Python's floor division `//`).  Log output that the claims mention is
returned alongside the result.
-/

/-- An HTTP response as seen by the orchestration code: only the status
code is inspected (policies.py uses `response.status_code`). -/
structure Response where
  status_code : Nat
deriving DecidableEq

/-- A peer node; the orchestration code only reads `checksum_address`. -/
structure Ursula where
  checksum_address : String
deriving DecidableEq

/-- Python `math.ceil(a / b)` for natural `a`, `b` with exact (real) division,
as used in `TreasureMapPublisher.__init__` (policies.py line 92). -/
def ceilDivNat (a b : Nat) : Nat := (a + b - 1) / b

/-- The configuration handed to the generic `WorkerPool` constructor
(utilities/concurrency.py, consumed here as an opaque collaborator). -/
structure WorkerPoolConfig where
  target_successes : Nat
  timeout : Nat
  stagger_timeout : Nat
  threadpool_size : Nat
deriving DecidableEq

/-- State of `TreasureMapPublisher.__init__` (policies.py lines 83-113):
total node count, the minimum-quorum count
`_block_until_this_many_are_complete = math.ceil(len(nodes) * percent / 100)`,
and the `WorkerPool` configuration it builds. -/
structure TreasureMapPublisher where
  total : Nat
  block_until_this_many_are_complete : Nat
  worker_pool : WorkerPoolConfig
deriving DecidableEq

/-- Constructor `TreasureMapPublisher.__init__` over a node list, the release
percentage, the threadpool size and the timeout (defaults in the source:
5, 120, 20). -/
def mkTreasureMapPublisher (nodes : List Ursula) (percent_to_complete_before_release : Nat)
    (threadpool_size : Nat) (timeout : Nat) : TreasureMapPublisher :=
  let total := nodes.length
  let quorum := ceilDivNat (total * percent_to_complete_before_release) 100
  { total := total
    block_until_this_many_are_complete := quorum
    worker_pool :=
      { target_successes := quorum
        timeout := timeout
        stagger_timeout := 0
        threadpool_size := threadpool_size } }

/-- The exception classes declared on `Policy` (policies.py lines 164-191)
that the embedded fragments raise.  `notEnoughUrsulas` and
`notEnoughBlockchainUrsulas` carry no data because the source raises the
bare exception class (`raise self._not_enough_ursulas_exception()` returns
and raises the class itself, instantiated with no arguments). -/
inductive PolicyException where
  | notEnoughUrsulas
  | notEnoughBlockchainUrsulas
  | enactmentError (report : String)
  | unpaid
deriving DecidableEq

/-- The per-peer status report built in
`block_until_success_is_reasonably_likely` (policies.py line 137):
one `address: status` line per recorded success. -/
def statusReport (responses : List (String × Nat)) : String :=
  String.intercalate "\n" (responses.map (fun p => p.1 ++ ": " ++ toString p.2))

/-- The post-quorum inspection stage of
`TreasureMapPublisher.block_until_success_is_reasonably_likely`
(policies.py lines 126-149).  The blocking wait itself
(`worker_pool.block_until_target_successes`) is concurrency and is
abstracted away: `successes` is the snapshot of recorded successes
(address of each Ursula paired with the response status code) at the
moment the quorum wait returned. -/
def block_until_success_is_reasonably_likely (successes : List (String × Nat)) :
    Except PolicyException (List (String × Nat)) :=
  if successes.all (fun p => p.2 == 201) then
    .ok successes
  else if successes.any (fun p => p.2 == 402) then
    .error .unpaid
  else
    .error (.enactmentError (statusReport successes))

/-- C2: for every `TreasureMapPublisher` over `nodes` with percentage
`percent`, the `WorkerPool` target equals the stored minimum-quorum count,
and that count is exactly the ceiling of `nodes.length * percent / 100`:
it is the least `k` with `nodes.length * percent ≤ 100 * k`. -/
theorem treasure_map_publisher_quorum_is_ceiling (nodes : List Ursula) (percent tpSize tmo : Nat) :
    (mkTreasureMapPublisher nodes percent tpSize tmo).worker_pool.target_successes =
      (mkTreasureMapPublisher nodes percent tpSize tmo).block_until_this_many_are_complete ∧
    nodes.length * percent ≤
      100 * (mkTreasureMapPublisher nodes percent tpSize tmo).block_until_this_many_are_complete ∧
    (∀ k : Nat, nodes.length * percent ≤ 100 * k →
      (mkTreasureMapPublisher nodes percent tpSize tmo).block_until_this_many_are_complete ≤ k) := by
  refine ⟨rfl, ?_, ?_⟩
  · simp only [mkTreasureMapPublisher, ceilDivNat]
    omega
  · intro k hk
    simp only [mkTreasureMapPublisher, ceilDivNat]
    omega

/-- C2 witness: publication to 20 peers with
`percent_to_complete_before_release = 5` gives a quorum of exactly 1. -/
theorem treasure_map_publisher_quorum_is_ceiling_witness :
    (List.replicate 20 (Ursula.mk "n")).length * 5 ≤
      100 * (mkTreasureMapPublisher (List.replicate 20 (Ursula.mk "n")) 5 120 20).block_until_this_many_are_complete ∧
    (mkTreasureMapPublisher (List.replicate 20 (Ursula.mk "n")) 5 120 20).block_until_this_many_are_complete ≤ 1 :=
  ⟨(treasure_map_publisher_quorum_is_ceiling (List.replicate 20 (Ursula.mk "n")) 5 120 20).2.1,
   (treasure_map_publisher_quorum_is_ceiling (List.replicate 20 (Ursula.mk "n")) 5 120 20).2.2 1 (by decide)⟩

/-- C1: once the quorum wait has completed, the publication check returns
the completed set when every recorded success has status 201, raises
`Unpaid` when at least one recorded success has status 402, and otherwise
raises `EnactmentError` carrying the per-peer status report. -/
theorem block_until_success_classification (successes : List (String × Nat)) :
    ((∀ p ∈ successes, p.2 = 201) →
      block_until_success_is_reasonably_likely successes = .ok successes) ∧
    ((∃ p ∈ successes, p.2 = 402) →
      block_until_success_is_reasonably_likely successes = .error .unpaid) ∧
    ((¬ ∀ p ∈ successes, p.2 = 201) → (¬ ∃ p ∈ successes, p.2 = 402) →
      block_until_success_is_reasonably_likely successes =
        .error (.enactmentError (statusReport successes))) := by
  refine ⟨?_, ?_, ?_⟩
  · intro hall
    have h201 : successes.all (fun p => p.2 == 201) = true := by
      rw [List.all_eq_true]
      intro p hp
      simp [hall p hp]
    simp only [block_until_success_is_reasonably_likely]
    rw [if_pos h201]
  · intro hany
    have h402 : successes.any (fun p => p.2 == 402) = true := by
      rw [List.any_eq_true]
      obtain ⟨p, hp, he⟩ := hany
      exact ⟨p, hp, by simp [he]⟩
    have hnotall : ¬ successes.all (fun p => p.2 == 201) = true := by
      rw [List.all_eq_true]
      intro hall
      obtain ⟨p, hp, he⟩ := hany
      have := hall p hp
      simp [he] at this
    simp only [block_until_success_is_reasonably_likely]
    rw [if_neg hnotall, if_pos h402]
  · intro hnall hnany
    have hnotall : ¬ successes.all (fun p => p.2 == 201) = true := by
      rw [List.all_eq_true]
      intro hall
      exact hnall (fun p hp => by have := hall p hp; simpa using this)
    have hnotany : ¬ successes.any (fun p => p.2 == 402) = true := by
      rw [List.any_eq_true]
      intro ⟨p, hp, he⟩
      exact hnany ⟨p, hp, by simpa using he⟩
    simp only [block_until_success_is_reasonably_likely]
    rw [if_neg hnotall, if_neg hnotany]

/-- C1 witness: one peer answering 402 and the rest 201, at a quorum
including that peer, yields `Unpaid`, not a generic error. -/
theorem block_until_success_classification_witness :
    block_until_success_is_reasonably_likely [("0xA", 402), ("0xB", 201), ("0xC", 201)] =
      .error .unpaid :=
  (block_until_success_classification [("0xA", 402), ("0xB", 201), ("0xC", 201)]).2.1
    ⟨("0xA", 402), by simp, rfl⟩

/-- An umbral public key: its compressed serialization, 33 bytes
(nucypher/crypto/splitters.py `key_splitter`; the key type itself is an
external collaborator, represented by its byte serialization). -/
abbrev PublicKey := { bs : List Nat // bs.length = 33 }

/-- A character (Alice or Bob) as the policy code sees it:
`stamp.as_umbral_pubkey()` plus all remaining character state, which the
hrac and arrangement code never reads (abstracted into one field). -/
structure Character where
  verifying_key : PublicKey
  other_state : Nat
deriving DecidableEq

/-- Class `Arrangement` (policies.py lines 47-76): an immutable value object of
the publisher's verifying key and the expiration timestamp (a `MayaDT`,
represented by its epoch value). -/
structure Arrangement where
  publisher_verifying_key : PublicKey
  expiration : Nat
deriving DecidableEq

/-- Classmethod `Arrangement.from_publisher` (policies.py lines 64-67). -/
def Arrangement.from_publisher (publisher : Character) (expiration : Nat) : Arrangement :=
  { publisher_verifying_key := publisher.verifying_key, expiration := expiration }

/-- The failure modes of `Policy._propose_arrangement` (policies.py lines
251-286): a `RuntimeError` for an unknown address, the middleware
signature-verification failure raised by `verify_from`, and a
`RuntimeError` for any non-200 negotiation status. -/
inductive ProposalError where
  | addressUnknown (address : String)
  | invalidSignature
  | rejected (status : Nat)
deriving DecidableEq

/-- Method `Policy._propose_arrangement` (policies.py lines 251-286).  The
middleware round-trip `network_middleware.propose_arrangement` is
abstracted into the `response` it returned, and `verify_from` (external
cryptography) into the boolean `signature_valid` (the source raises on an
invalid signature). -/
def propose_arrangement (publisher : Character) (known_nodes : List Ursula) (expiration : Nat)
    (address : String) (response : Response) (signature_valid : Bool) :
    Except ProposalError (Ursula × Arrangement) :=
  match known_nodes.find? (fun u => u.checksum_address == address) with
  | none => .error (.addressUnknown address)
  | some ursula =>
    let arrangement := Arrangement.from_publisher publisher expiration
    if response.status_code == 200 then
      if signature_valid then
        .ok (ursula, arrangement)
      else
        .error .invalidSignature
    else
      .error (.rejected response.status_code)

/-- The two concrete `Policy` variants (policies.py classes
`FederatedPolicy` and `BlockchainPolicy`). -/
inductive PolicyVariant where
  | federated
  | blockchain
deriving DecidableEq

/-- Hook `_not_enough_ursulas_exception` (policies.py lines 431-432 and
468-469): the exception class each variant raises. -/
def not_enough_ursulas_exception : PolicyVariant → PolicyException
  | .federated => .notEnoughUrsulas
  | .blockchain => .notEnoughBlockchainUrsulas

/-- The `accepted_addresses` string of `Policy._make_arrangements`
(policies.py line 330). -/
def acceptedAddresses (accepted : List (Ursula × Arrangement)) : String :=
  String.intercalate ", " (accepted.map (fun p => p.1.checksum_address))

/-- The `rejected_proposals` string of `Policy._make_arrangements`
(policies.py line 334): one `address: value` line per recorded failure. -/
def rejectedProposals (failures : List (String × String)) : String :=
  String.intercalate "\n" (failures.map (fun p => p.1 ++ ": " ++ p.2))

/-- One debug-log entry of `Policy._make_arrangements`; the not-enough
entry carries the two formatted address strings interpolated into the
logged f-string (policies.py lines 336-339, 343). -/
inductive ArrangementLog where
  | debugNotEnough (accepted : String) (rejected : String)
  | debugFinished (accepted : String)
deriving DecidableEq

/-- The outcome stage of `Policy._make_arrangements` (policies.py lines
327-345), after the worker pool has been cancelled and joined:
`successes` are the pool's recorded `(ursula, arrangement)` pairs and
`failures` the recorded per-address failure details.  Returns the result
together with the debug-log entries emitted. -/
def make_arrangements_outcome (variant : PolicyVariant) (n : Nat)
    (successes : List (Ursula × Arrangement)) (failures : List (String × String)) :
    Except PolicyException (List (Ursula × Arrangement)) × List ArrangementLog :=
  let accepted_arrangements := successes
  if accepted_arrangements.length < n then
    (.error (not_enough_ursulas_exception variant),
     [.debugNotEnough (acceptedAddresses accepted_arrangements) (rejectedProposals failures)])
  else
    (.ok accepted_arrangements, [.debugFinished (acceptedAddresses accepted_arrangements)])

/-- The outcome of the middleware call
`network_middleware.put_treasure_map_on_node`: either an HTTP response or
a raised transport exception (its message). -/
inductive TransportOutcome where
  | response (r : Response)
  | exception (msg : String)
deriving DecidableEq

/-- Whether an `Except` is a success. -/
def exceptOk : Except ε α → Bool
  | .ok _ => true
  | .error _ => false

/-- The worker closure `put_treasure_map_on_node` of
`TreasureMapPublisher.__init__` (policies.py lines 94-106): a transport
exception is logged and re-raised (so the `WorkerPool` records a
failure); an HTTP response with a non-201 status is logged as a warning
but still returned (so the pool records a success).  Returns the worker
result together with the warning-log lines. -/
def put_treasure_map_on_node (node : String) (outcome : TransportOutcome) :
    Except String Response × List String :=
  match outcome with
  | .exception e =>
    (.error e, ["Putting treasure map on " ++ node ++ " failed: " ++ e])
  | .response r =>
    if r.status_code != 201 then
      (.ok r, ["Putting treasure map on " ++ node ++ " failed with response status: " ++
               toString r.status_code])
    else
      (.ok r, [])

/-- A concrete 33-byte public key for counterexamples and witnesses. -/
def pkey0 : PublicKey := ⟨List.replicate 33 1, by simp⟩

/-- A concrete publisher character. -/
def alice0 : Character := { verifying_key := pkey0, other_state := 0 }

/-- C4 counterexample: the claim says `_propose_arrangement` treats a
response with status code 200 or 201 as an acceptance; in the code a 201
negotiation response (known address, valid signature) is a failed
proposal — only 200 is accepted. -/
theorem propose_arrangement_rejects_201 :
    propose_arrangement alice0 [Ursula.mk "0xA"] 0 "0xA" (Response.mk 201) true =
      .error (.rejected 201) := by
  rfl

/-- C4 (amended): a proposal response is accepted exactly when the
address is known, the status code is exactly 200 and the signature
verifies; on the publication side, acceptance at the quorum check means
status 201, so even a 200 publication response is a generic rejection
(`EnactmentError`), while 402 means payment required (`Unpaid`). -/
theorem propose_arrangement_accepts_exactly_200 :
    (∀ (publisher : Character) (known_nodes : List Ursula) (expiration : Nat)
       (address : String) (response : Response) (signature_valid : Bool),
      (∃ ua, propose_arrangement publisher known_nodes expiration address response signature_valid =
        .ok ua) ↔
      ((∃ u ∈ known_nodes, u.checksum_address = address) ∧
        response.status_code = 200 ∧ signature_valid = true)) ∧
    block_until_success_is_reasonably_likely [("0xB", 200)] =
      .error (.enactmentError (statusReport [("0xB", 200)])) ∧
    block_until_success_is_reasonably_likely [("0xB", 402)] = .error .unpaid := by
  refine ⟨?_, by rfl, by rfl⟩
  intro publisher known_nodes expiration address response signature_valid
  constructor
  · intro ⟨ua, hok⟩
    simp only [propose_arrangement] at hok
    cases hfind : known_nodes.find? (fun u => u.checksum_address == address) with
    | none => rw [hfind] at hok; exact absurd hok (by simp)
    | some u =>
      rw [hfind] at hok
      dsimp only at hok
      by_cases h200 : response.status_code == 200
      · rw [if_pos h200] at hok
        by_cases hsig : signature_valid
        · exact ⟨⟨u, List.mem_of_find?_eq_some hfind, by
            have := List.find?_some hfind; simpa using this⟩,
            by simpa using h200, hsig⟩
        · simp [hsig] at hok
      · rw [if_neg h200] at hok
        exact absurd hok (by simp)
  · intro ⟨⟨u, hu, haddr⟩, h200, hsig⟩
    simp only [propose_arrangement]
    cases hfind : known_nodes.find? (fun x => x.checksum_address == address) with
    | none =>
      have := List.find?_eq_none.mp hfind u hu
      simp [haddr] at this
    | some v =>
      rw [h200, hsig]
      exact ⟨(v, Arrangement.from_publisher publisher expiration), by simp⟩

/-- C4 witness: a known peer, a 200 response and a valid signature give
an acceptance. -/
theorem propose_arrangement_accepts_exactly_200_witness :
    ∃ ua, propose_arrangement alice0 [Ursula.mk "0xA"] 0 "0xA" (Response.mk 200) true = .ok ua :=
  (propose_arrangement_accepts_exactly_200.1 alice0 [Ursula.mk "0xA"] 0 "0xA"
      (Response.mk 200) true).mpr ⟨⟨Ursula.mk "0xA", by simp, rfl⟩, rfl, rfl⟩

/-- C3 counterexample: two under-quorum runs whose failure lists name
different addresses raise the very same error value, and that value is
the bare `NotEnoughUrsulas` — so the raised error does not include the
accepted or rejected address lists (they only reach the debug log). -/
theorem not_enough_ursulas_error_carries_no_addresses :
    (make_arrangements_outcome .federated 1 [] [("0xA", "refused")]).1 =
      (make_arrangements_outcome .federated 1 [] [("0xB", "timed out")]).1 ∧
    (make_arrangements_outcome .federated 1 [] [("0xA", "refused")]).1 =
      .error .notEnoughUrsulas := by
  exact ⟨rfl, rfl⟩

/-- C3 (amended): when fewer than `n` acceptances were obtained,
`_make_arrangements` raises the policy-variant-specific bare exception
(`Policy.NotEnoughUrsulas` for the federated variant,
`BlockchainPolicy.NotEnoughBlockchainUrsulas` for the blockchain
variant), and the accepted and rejected address lists appear in the
emitted debug-log entry, not in the raised error. -/
theorem make_arrangements_not_enough (variant : PolicyVariant) (n : Nat)
    (successes : List (Ursula × Arrangement)) (failures : List (String × String))
    (h : successes.length < n) :
    (make_arrangements_outcome variant n successes failures).1 =
      .error (not_enough_ursulas_exception variant) ∧
    (make_arrangements_outcome variant n successes failures).2 =
      [.debugNotEnough (acceptedAddresses successes) (rejectedProposals failures)] ∧
    not_enough_ursulas_exception .federated = .notEnoughUrsulas ∧
    not_enough_ursulas_exception .blockchain = .notEnoughBlockchainUrsulas := by
  simp only [make_arrangements_outcome]
  rw [if_pos h]
  exact ⟨rfl, rfl, rfl, rfl⟩

/-- C3 witness: a federated run needing one acceptance with none
obtained raises the bare `NotEnoughUrsulas` and logs the lists. -/
theorem make_arrangements_not_enough_witness :
    (make_arrangements_outcome .federated 1 [] [("0xA", "refused")]).1 =
      .error (not_enough_ursulas_exception .federated) ∧
    (make_arrangements_outcome .federated 1 [] [("0xA", "refused")]).2 =
      [.debugNotEnough (acceptedAddresses []) (rejectedProposals [("0xA", "refused")])] :=
  ⟨(make_arrangements_not_enough .federated 1 [] [("0xA", "refused")] (by decide)).1,
   (make_arrangements_not_enough .federated 1 [] [("0xA", "refused")] (by decide)).2.1⟩

/-- C7: the publication worker records a success exactly when the
transport call returned without raising, independent of the HTTP status:
a response (of any status) is a success carrying that response, with a
warning logged when the status is not 201; a transport exception is a
failure carrying the error detail. -/
theorem put_treasure_map_success_iff_transport (node : String) (outcome : TransportOutcome) :
    (exceptOk (put_treasure_map_on_node node outcome).1 = true ↔
      ∃ r, outcome = .response r) ∧
    (∀ r, outcome = .response r → (put_treasure_map_on_node node outcome).1 = .ok r) ∧
    (∀ r, outcome = .response r → r.status_code ≠ 201 →
      (put_treasure_map_on_node node outcome).2 ≠ []) ∧
    (∀ e, outcome = .exception e → (put_treasure_map_on_node node outcome).1 = .error e) := by
  cases outcome with
  | response r =>
    refine ⟨⟨fun _ => ⟨r, rfl⟩, fun _ => ?_⟩, ?_, ?_, ?_⟩
    · simp only [put_treasure_map_on_node]
      by_cases h : r.status_code ≠ 201 <;> simp [h, exceptOk]
    · intro s hs
      cases hs
      simp only [put_treasure_map_on_node]
      by_cases h : r.status_code ≠ 201 <;> simp [h]
    · intro s hs hne
      cases hs
      simp [put_treasure_map_on_node, hne]
    · intro e he
      cases he
  | exception e =>
    refine ⟨⟨fun h => ?_, fun ⟨r, hr⟩ => by cases hr⟩, ?_, ?_, ?_⟩
    · simp [put_treasure_map_on_node, exceptOk] at h
    · intro r hr; cases hr
    · intro r hr; cases hr
    · intro f hf
      cases hf
      rfl

/-- C7 witness: a reachable peer answering 404 is still recorded as a
success (with a warning logged), and a transport exception as a failure. -/
theorem put_treasure_map_success_iff_transport_witness :
    (put_treasure_map_on_node "n1" (.response (Response.mk 404))).1 = .ok (Response.mk 404) ∧
    (put_treasure_map_on_node "n1" (.response (Response.mk 404))).2 ≠ [] ∧
    (put_treasure_map_on_node "n2" (.exception "connection refused")).1 =
      .error "connection refused" :=
  ⟨(put_treasure_map_success_iff_transport "n1" (.response (Response.mk 404))).2.1
      (Response.mk 404) rfl,
   (put_treasure_map_success_iff_transport "n1" (.response (Response.mk 404))).2.2.1
      (Response.mk 404) rfl (by decide),
   (put_treasure_map_success_iff_transport "n2" (.exception "connection refused")).2.2.2
      "connection refused" rfl⟩

/-- The errors raised inside `BlockchainPolicy.generate_policy_parameters`
and `BlockchainPolicy._validate_fee_value`: the declared
`InvalidPolicyValue` (a `ValueError` subclass), the plain `ValueError`
that `_validate_fee_value` raises, and Python's `ZeroDivisionError` (for
fidelity of `//` at a zero divisor). -/
inductive ParamsError where
  | invalidPolicyValue (msg : String)
  | valueError (msg : String)
  | zeroDivisionError
deriving DecidableEq

/-- Python truthiness of an optional integer (`bool(None) = False`,
`bool(i) = (i != 0)`). -/
def pybool : Option Int → Bool
  | none => false
  | some x => !(x == 0)

/-- Whether an optional parameter is provided and negative, as tested by
the generator's negative-input check (policies.py line 486). -/
def is_negative : Option Int → Bool
  | none => false
  | some x => decide (x < 0)

/-- Static method `BlockchainPolicy.generate_policy_parameters` (policies.py lines
479-511).  Python `//` is `Int.fdiv`; `value == 0` compares `None == 0`
to `False` as Python does; a `//` by zero is `ZeroDivisionError`. -/
def generate_policy_parameters (n : Int) (payment_periods : Int)
    (value : Option Int) (rate : Option Int) : Except ParamsError (Int × Int) :=
  if is_negative (some n) || is_negative (some payment_periods) ||
      is_negative value || is_negative rate then
    .error (.invalidPolicyValue "Negative policy parameters are not allowed. Be positive.")
  else if !(pybool value ^^ pybool rate) && !(value == some 0 || rate == some 0) then
    .error (.invalidPolicyValue "Either 'value' or 'rate' must be provided for policy.")
  else
    match value with
    | none =>
      -- `rate` is necessarily provided on this path (both absent was
      -- rejected above); `getD 0` is never exercised.
      let r := rate.getD 0
      .ok (r, r * payment_periods * n)
    | some v =>
      if n == 0 then .error .zeroDivisionError
      else
        let value_per_node := Int.fdiv v n
        if value_per_node * n != v then
          .error (.invalidPolicyValue "Policy value cannot be divided by N without a remainder.")
        else if payment_periods == 0 then .error .zeroDivisionError
        else
          let r := Int.fdiv value_per_node payment_periods
          if r * payment_periods != value_per_node then
            .error (.invalidPolicyValue
              "Policy value per node cannot be divided by duration without a remainder.")
          else
            .ok (r, v)

/-- Method `BlockchainPolicy._validate_fee_value` (policies.py lines 471-477):
note the source raises a plain `ValueError` here, not the declared
`InvalidPolicyValue` subclass. -/
def validate_fee_value (value n payment_periods : Int) : Except ParamsError Unit :=
  if n == 0 || payment_periods == 0 then .error .zeroDivisionError
  else
    let rate_per_period := Int.fdiv (Int.fdiv value n) payment_periods
    let recalculated_value := payment_periods * rate_per_period * n
    if recalculated_value != value then
      .error (.valueError "Invalid policy value calculation - remainder left over")
    else
      .ok ()

/-- The fee fields `BlockchainPolicy.__init__` stores (policies.py lines
453-466). -/
structure BlockchainPolicyFees where
  payment_periods : Int
  value : Int
  rate : Int
deriving DecidableEq

/-- The fee-validation part of `BlockchainPolicy.__init__` (policies.py
lines 453-466): stores the fee fields, then `_validate_fee_value`;
`n` is the policy's share count `len(kfrags)`. -/
def blockchainPolicy_init (value rate payment_periods : Int) (n : Int) :
    Except ParamsError BlockchainPolicyFees :=
  match validate_fee_value value n payment_periods with
  | .error e => .error e
  | .ok _ =>
    .ok { payment_periods := payment_periods, value := value, rate := rate }

/-- C5: for `n > 0`, `payment_periods > 0` and a nonnegative `rate`,
deriving `value` from the rate and then re-deriving the parameters from
that value alone recovers the original rate exactly. -/
theorem generate_policy_parameters_roundtrip (n p r : Int)
    (hn : 0 < n) (hp : 0 < p) (hr : 0 ≤ r) :
    generate_policy_parameters n p none (some r) = .ok (r, r * p * n) ∧
    generate_policy_parameters n p (some (r * p * n)) none = .ok (r, r * p * n) := by
  have hn0 : ¬ (n == 0) = true := by simp; omega
  have hp0 : ¬ (p == 0) = true := by simp; omega
  have e1 : is_negative (some n) = false := by
    simp only [is_negative, decide_eq_false_iff_not]
    omega
  have e2 : is_negative (some p) = false := by
    simp only [is_negative, decide_eq_false_iff_not]
    omega
  have e3 : is_negative (some (r * p * n)) = false := by
    simp only [is_negative, decide_eq_false_iff_not, Int.not_lt]
    positivity
  have e4 : is_negative (some r) = false := by
    simp only [is_negative, decide_eq_false_iff_not]
    omega
  have e5 : is_negative (none : Option Int) = false := rfl
  have hneg : (is_negative (some n) || is_negative (some p) ||
      is_negative (some (r * p * n)) || is_negative (none : Option Int)) = false := by
    rw [e1, e2, e3, e5]
    rfl
  have hneg2 : (is_negative (some n) || is_negative (some p) ||
      is_negative (none : Option Int) || is_negative (some r)) = false := by
    rw [e1, e2, e4, e5]
    rfl
  have hdiv1 : Int.fdiv (r * p * n) n = r * p := by
    rw [Int.mul_fdiv_cancel]
    omega
  have hdiv2 : Int.fdiv (r * p) p = r := by
    rw [Int.mul_fdiv_cancel]
    omega
  constructor
  · simp only [generate_policy_parameters, hneg2, Bool.false_eq_true, if_false]
    by_cases hr0 : r = 0
    · subst hr0
      simp [pybool]
    · have : (pybool (none : Option Int) ^^ pybool (some r)) = true := by
        simp [pybool, hr0]
      rw [if_neg (by simp [this])]
      rfl
  · simp only [generate_policy_parameters, hneg, Bool.false_eq_true, if_false]
    have hbranch : ¬ (!(pybool (some (r * p * n)) ^^ pybool (none : Option Int)) &&
        !((some (r * p * n) : Option Int) == some 0 || (none : Option Int) == some 0)) = true := by
      by_cases hv0 : r * p * n = 0
      · simp [pybool, hv0]
      · simp [pybool, hv0]
    rw [if_neg hbranch]
    simp only [if_neg hn0, hdiv1]
    rw [if_neg (by simp), if_neg hp0]
    simp only [hdiv2]
    rw [if_neg (by simp)]

/-- C5 witness: `n = 3`, `payment_periods = 7`, `rate = 11` round-trips
through `value = 231`. -/
theorem generate_policy_parameters_roundtrip_witness :
    generate_policy_parameters 3 7 none (some 11) = .ok (11, 11 * 7 * 3) ∧
    generate_policy_parameters 3 7 (some (11 * 7 * 3)) none = .ok (11, 11 * 7 * 3) :=
  generate_policy_parameters_roundtrip 3 7 11 (by decide) (by decide) (by decide)

/-- Whether a parameter-generation outcome is the `InvalidPolicyValue`
error. -/
def isInvalidPolicyValue : Except ParamsError (Int × Int) → Bool
  | .error (.invalidPolicyValue _) => true
  | _ => false

/-- C6: a value that does not divide evenly across the `n` peers and the
`payment_periods` duration is a validation failure, never silently
rounded: `generate_policy_parameters` raises `InvalidPolicyValue`
whenever `value // n * n ≠ value` or
`(value // n) // payment_periods * payment_periods ≠ value // n`, and
`BlockchainPolicy` construction fails whenever
`payment_periods * (value // n // payment_periods) * n ≠ value`. -/
theorem uneven_policy_value_is_rejected (n p v rate : Int)
    (hn : 0 < n) (hp : 0 < p) (hv : 0 ≤ v) :
    ((Int.fdiv v n * n ≠ v ∨
        Int.fdiv (Int.fdiv v n) p * p ≠ Int.fdiv v n) →
      isInvalidPolicyValue (generate_policy_parameters n p (some v) none) = true) ∧
    (p * Int.fdiv (Int.fdiv v n) p * n ≠ v →
      ∃ e, blockchainPolicy_init v rate p n = .error e) := by
  have hn0 : ¬ (n == 0) = true := by simp; omega
  have hp0 : ¬ (p == 0) = true := by simp; omega
  constructor
  · intro hcond
    have e1 : is_negative (some n) = false := by
      simp only [is_negative, decide_eq_false_iff_not]; omega
    have e2 : is_negative (some p) = false := by
      simp only [is_negative, decide_eq_false_iff_not]; omega
    have e3 : is_negative (some v) = false := by
      simp only [is_negative, decide_eq_false_iff_not]; omega
    have e5 : is_negative (none : Option Int) = false := rfl
    have hneg : (is_negative (some n) || is_negative (some p) ||
        is_negative (some v) || is_negative (none : Option Int)) = false := by
      rw [e1, e2, e3, e5]
      rfl
    -- the condition forces `v ≠ 0` (a zero value divides evenly)
    have hvne : v ≠ 0 := by
      intro h0
      subst h0
      rcases hcond with h | h <;> simp [Int.zero_fdiv] at h
    have hbranch : ¬ (!(pybool (some v) ^^ pybool (none : Option Int)) &&
        !((some v : Option Int) == some 0 || (none : Option Int) == some 0)) = true := by
      simp [pybool, hvne]
    simp only [generate_policy_parameters, hneg, Bool.false_eq_true, if_false]
    rw [if_neg hbranch]
    simp only [if_neg hn0]
    by_cases hd1 : Int.fdiv v n * n != v
    · rw [if_pos hd1]
      rfl
    · have hd1e : Int.fdiv v n * n = v := by simpa using hd1
      rw [if_neg hd1]
      simp only [if_neg hp0]
      have hd2 : Int.fdiv (Int.fdiv v n) p * p ≠ Int.fdiv v n := by
        rcases hcond with h | h
        · exact absurd hd1e h
        · exact h
      rw [if_pos (by simpa using hd2)]
      rfl
  · intro hcond
    refine ⟨.valueError "Invalid policy value calculation - remainder left over", ?_⟩
    simp only [blockchainPolicy_init, validate_fee_value]
    have hz : ¬ (n == 0 || p == 0) = true := by
      simp
      omega
    rw [if_neg hz]
    rw [if_pos (by simpa using hcond)]

/-- C6 witness: `value = 5` cannot be split over `n = 2` peers and one
payment period, so generation raises `InvalidPolicyValue` and
construction fails. -/
theorem uneven_policy_value_is_rejected_witness :
    isInvalidPolicyValue (generate_policy_parameters 2 1 (some 5) none) = true ∧
    ∃ e, blockchainPolicy_init 5 0 1 2 = .error e :=
  ⟨(uneven_policy_value_is_rejected 2 1 5 0 (by decide) (by decide) (by decide)).1
      (Or.inl (by decide)),
   (uneven_policy_value_is_rejected 2 1 5 0 (by decide) (by decide) (by decide)).2
      (by decide)⟩

/-- Modelled from the spec: `keccak_digest` (nucypher/crypto/utils.py is
not part of this source tree) — a deterministic digest of a byte string;
embedded as a simple 256-bit fold, which is all the claims need (a pure
function of its input). -/
def keccak_digest (data : List Nat) : List Nat :=
  [data.foldl (fun h b => (h * 31 + b) % 2 ^ 256) 5381]

/-- Modelled from the spec: `TreasureMap.derive_hrac`
(nucypher/policy/maps.py is not part of this source tree) — the
deterministic "hashed resource authentication code", a hash of exactly
the publisher's verifying key, Bob's verifying key and the label
(policies.py lines 220-236 document and pass exactly these three). -/
def derive_hrac (publisher_verifying_key bob_verifying_key label : List Nat) : List Nat :=
  keccak_digest (publisher_verifying_key ++ bob_verifying_key ++ label)

/-- Modelled from the spec: `construct_policy_id(label, bytes(bob.stamp))`
(nucypher/crypto/utils.py is not part of this source tree) — a
deterministic policy id from the label and Bob's stamp bytes. -/
def construct_policy_id (label stamp : List Nat) : List Nat :=
  keccak_digest (label ++ stamp)

/-- The fields `Policy.__init__` stores (policies.py lines 194-236). -/
structure PolicyData where
  m : Nat
  n : Nat
  publisher : Character
  label : List Nat
  bob : Character
  kfrags : List Nat
  public_key : List Nat
  expiration : Nat
  policy_id : List Nat
  hrac : List Nat
deriving DecidableEq

/-- Constructor `Policy.__init__` (policies.py lines 194-236): stores the inputs,
derives `_id = construct_policy_id(label, bytes(bob.stamp))` and
`hrac = TreasureMap.derive_hrac(publisher key, bob key, label)`.
Key fragments are opaque handles (their contents are never read here);
`n = len(kfrags)`. -/
def Policy.init (publisher : Character) (label : List Nat) (expiration : Nat)
    (bob : Character) (kfrags : List Nat) (public_key : List Nat) (m : Nat) : PolicyData :=
  { m := m
    n := kfrags.length
    publisher := publisher
    label := label
    bob := bob
    kfrags := kfrags
    public_key := public_key
    expiration := expiration
    policy_id := construct_policy_id label bob.verifying_key.val
    hrac := derive_hrac publisher.verifying_key.val bob.verifying_key.val label }

/-- C8: two `Policy` constructions with identical publisher verifying
key, recipient verifying key and label derive the identical `hrac`, no
matter how every other input (expiration, kfrags, public key, threshold,
remaining character state) differs: the hrac is a deterministic function
of exactly those three inputs. -/
theorem policy_hrac_deterministic (pub1 pub2 bob1 bob2 : Character) (label : List Nat)
    (e1 e2 : Nat) (k1 k2 : List Nat) (pk1 pk2 : List Nat) (m1 m2 : Nat)
    (hpub : pub1.verifying_key = pub2.verifying_key)
    (hbob : bob1.verifying_key = bob2.verifying_key) :
    (Policy.init pub1 label e1 bob1 k1 pk1 m1).hrac =
      (Policy.init pub2 label e2 bob2 k2 pk2 m2).hrac := by
  simp only [Policy.init, derive_hrac, hpub, hbob]

/-- C8 witness: two constructions sharing only the three hrac inputs
(and differing in expiration, kfrags, public key, threshold and residual
character state) give the same hrac. -/
theorem policy_hrac_deterministic_witness :
    (Policy.init { verifying_key := pkey0, other_state := 0 } [1, 2] 10
        { verifying_key := pkey0, other_state := 5 } [7] [9] 1).hrac =
      (Policy.init { verifying_key := pkey0, other_state := 3 } [1, 2] 99
        { verifying_key := pkey0, other_state := 8 } [7, 7] [] 2).hrac :=
  policy_hrac_deterministic { verifying_key := pkey0, other_state := 0 }
    { verifying_key := pkey0, other_state := 3 }
    { verifying_key := pkey0, other_state := 5 }
    { verifying_key := pkey0, other_state := 8 }
    [1, 2] 10 99 [7] [7, 7] [9] [] 1 2 rfl rfl

/-- Modelled from the spec: `maya.MayaDT.iso8601()` (the maya library is
an external collaborator) — an injective textual encoding of the
timestamp, embedded as the ASCII decimal digits of the epoch value. -/
def iso8601 (epoch : Nat) : List Nat :=
  ((Nat.digits 10 epoch).map (fun d => d + 48)).reverse

/-- Modelled from the spec: `maya.MayaDT.from_iso8601` — parses the
textual timestamp back to the epoch value. -/
def from_iso8601 (bs : List Nat) : Nat :=
  Nat.ofDigits 10 ((bs.map (fun c => c - 48)).reverse)

/-- Modelled from the spec: the 4-byte big-endian length of a
`VariableLengthBytestring` (the bytestring_splitter library is an
external collaborator). -/
def encodeLength4 (l : Nat) : List Nat :=
  [l / 2 ^ 24 % 256, l / 2 ^ 16 % 256, l / 2 ^ 8 % 256, l % 256]

/-- Reading back a 4-byte big-endian length. -/
def decodeLength4 (bs : List Nat) : Nat :=
  match bs with
  | [b0, b1, b2, b3] => ((b0 * 256 + b1) * 256 + b2) * 256 + b3
  | _ => 0

/-- Modelled from the spec: `VariableLengthBytestring(payload)` — the
length-prefixed payload. -/
def variableLengthBytestring (payload : List Nat) : List Nat :=
  encodeLength4 payload.length ++ payload

/-- Serialization `Arrangement.__bytes__` (policies.py lines 61-62):
`bytes(publisher_verifying_key) + bytes(VariableLengthBytestring(expiration.iso8601().encode()))`. -/
def Arrangement.toBytes (a : Arrangement) : List Nat :=
  a.publisher_verifying_key.val ++ variableLengthBytestring (iso8601 a.expiration)

/-- Classmethod `Arrangement.from_bytes` (policies.py lines 69-73): the splitter
consumes a 33-byte key (`key_splitter`), then a length-prefixed
bytestring, which must account for exactly the remaining bytes; the
payload is parsed back into the expiration timestamp. -/
def Arrangement.from_bytes (bs : List Nat) : Option Arrangement :=
  let key := bs.take 33
  let rest := bs.drop 33
  let l := decodeLength4 (rest.take 4)
  let payload := (rest.drop 4).take l
  if h : key.length = 33 ∧ (rest.drop 4).length = l then
    some { publisher_verifying_key := ⟨key, h.1⟩, expiration := from_iso8601 payload }
  else
    none

theorem iso8601_length (d : Nat) : (iso8601 d).length = (Nat.digits 10 d).length := by
  simp [iso8601]

theorem digits_len_le_of_lt_pow (m k : Nat) (h : m < 10 ^ k) :
    (Nat.digits 10 m).length ≤ k := by
  by_cases hm : m = 0
  · subst hm
    simp
  · have h1 := Nat.base_pow_length_digits_le 10 m (by norm_num) hm
    have h2 : 10 ^ (Nat.digits 10 m).length < 10 ^ (k + 1) := by
      calc 10 ^ (Nat.digits 10 m).length ≤ 10 * m := h1
        _ < 10 * 10 ^ k := by omega
        _ = 10 ^ (k + 1) := by ring
    have h3 := (Nat.pow_lt_pow_iff_right (by norm_num : 1 < 10)).mp h2
    omega

theorem decode_encode_length (l : Nat) (h : l < 2 ^ 32) :
    decodeLength4 (encodeLength4 l) = l := by
  simp only [encodeLength4, decodeLength4]
  omega

theorem from_iso8601_iso8601 (d : Nat) : from_iso8601 (iso8601 d) = d := by
  simp only [from_iso8601, iso8601, List.map_reverse, List.reverse_reverse, List.map_map]
  have hcomp : ((fun c => c - 48) ∘ fun d => d + 48) = (id : Nat → Nat) := by
    funext x
    simp
  rw [hcomp, List.map_id, Nat.ofDigits_digits]

/-- C9: the byte serialization of an `Arrangement` is a function of the
publisher verifying key and the expiration only, and parsing it back
(`from_bytes ∘ bytes`) recovers the same key and expiration.  The
hypothesis bounds the epoch so that its textual encoding fits the 4-byte
length field (any realistic timestamp does). -/
theorem arrangement_serialization_roundtrip (a : Arrangement) (h : a.expiration < 10 ^ 18) :
    Arrangement.from_bytes (Arrangement.toBytes a) = some a ∧
    (∀ b : Arrangement, b.publisher_verifying_key = a.publisher_verifying_key →
      b.expiration = a.expiration → Arrangement.toBytes b = Arrangement.toBytes a) := by
  obtain ⟨⟨K, hK33⟩, exp⟩ := a
  constructor
  · have hplen : (iso8601 exp).length < 2 ^ 32 := by
      have h9 : (Nat.digits 10 exp).length ≤ 18 := digits_len_le_of_lt_pow exp 18 h
      rw [iso8601_length]
      omega
    have hlen4 : (encodeLength4 (iso8601 exp).length).length = 4 := rfl
    have h1 : (Arrangement.toBytes ⟨⟨K, hK33⟩, exp⟩).take 33 = K := by
      simp only [Arrangement.toBytes]
      exact List.take_left' hK33
    have h2 : (Arrangement.toBytes ⟨⟨K, hK33⟩, exp⟩).drop 33 =
        variableLengthBytestring (iso8601 exp) := by
      simp only [Arrangement.toBytes]
      exact List.drop_left' hK33
    have h3 : (variableLengthBytestring (iso8601 exp)).take 4 =
        encodeLength4 (iso8601 exp).length := by
      simp only [variableLengthBytestring]
      exact List.take_left' hlen4
    have h4 : (variableLengthBytestring (iso8601 exp)).drop 4 = iso8601 exp := by
      simp only [variableLengthBytestring]
      exact List.drop_left' hlen4
    have h5 : decodeLength4 (encodeLength4 (iso8601 exp).length) = (iso8601 exp).length :=
      decode_encode_length _ hplen
    simp only [Arrangement.from_bytes, h1, h2, h3, h4, h5]
    rw [dif_pos ⟨hK33, trivial⟩]
    simp [List.take_length, from_iso8601_iso8601]
  · intro b hb1 hb2
    obtain ⟨bk, be⟩ := b
    cases hb1
    cases hb2
    rfl

/-- C9 witness: a concrete arrangement round-trips through its byte
serialization. -/
theorem arrangement_serialization_roundtrip_witness :
    Arrangement.from_bytes
        (Arrangement.toBytes { publisher_verifying_key := pkey0, expiration := 123 }) =
      some { publisher_verifying_key := pkey0, expiration := 123 } :=
  (arrangement_serialization_roundtrip
      { publisher_verifying_key := pkey0, expiration := 123 } (by norm_num)).1

/-- A known node as `networking.py` sees it: only `rest_url()` is read. -/
structure NetPeer where
  rest_url : String
deriving DecidableEq

/-- The exceptions `determine_external_ip_address` can raise: the
`ValueError` from `random.sample` when the sample is larger than the
population, and `UnknownIPAddress` (networking.py lines 31-32, 98). -/
inductive NetError where
  | valueError
  | unknownIPAddress
deriving DecidableEq

/-- The three IP sources of the cascade (networking.py lines 90-96). -/
inductive IPSource where
  | knownNodes
  | teacher
  | central
deriving DecidableEq

/-- Python truthiness of an optional string (`None` and `''` are falsy). -/
def truthy : Option String → Bool
  | none => false
  | some s => !(s == "")

/-- The first truthy entry of a list of optional strings, if any. -/
def firstTruthy : List (Option String) → Option String
  | [] => none
  | o :: rest => if truthy o then o else firstTruthy rest

/-- Function `get_external_ip_from_url_source` (networking.py lines 44-52):
the HTTP round-trip is abstracted into the oracle `urlResults`, which
yields the response text on a 200 response and `none` on a request error
or a non-200 status. -/
def get_external_ip_from_url_source (urlResults : String → Option String)
    (url : String) : Option String :=
  urlResults url

/-- Function `get_external_ip_from_centralized_source` (networking.py lines
78-81): the fixed centralized endpoint. -/
def get_external_ip_from_centralized_source (urlResults : String → Option String) :
    Option String :=
  get_external_ip_from_url_source urlResults "https://ifconfig.me/"

/-- Function `get_external_ip_from_known_nodes` (networking.py lines 70-75):
`random.sample(known_nodes, 3)` raises `ValueError` when fewer than 3
nodes are known (the random choice itself is abstracted into the given
`sample`); otherwise each sampled node's URL is queried in turn and the
first truthy answer returned. -/
def get_external_ip_from_known_nodes (urlResults : String → Option String)
    (known_nodes sample : List NetPeer) (sample_size : Nat) :
    Except NetError (Option String) :=
  if known_nodes.length < sample_size then
    .error .valueError
  else
    .ok (firstTruthy (sample.map (fun nd => get_external_ip_from_url_source urlResults nd.rest_url)))

/-- The final `if not rest_host: raise UnknownIPAddress` and
`return rest_host` of `determine_external_ip_address`
(networking.py lines 97-99). -/
def finalizeHost (rest_host : Option String) (consulted : List IPSource) :
    Except NetError String × List IPSource :=
  match rest_host with
  | some s => if s == "" then (.error .unknownIPAddress, consulted) else (.ok s, consulted)
  | none => (.error .unknownIPAddress, consulted)

/-- The two fallbacks of `determine_external_ip_address` (networking.py
lines 93-99): consult the default teacher when the host so far is falsy,
then the centralized service, then finalize.  `teacherResult` abstracts
`get_external_ip_from_default_teacher` (whose teacher lookup and ping are
external); `centralResult` is the centralized service's answer.  The
returned list records which sources were consulted, in order. -/
def cascadeFallbacks (teacherResult centralResult : Option String)
    (rest_host : Option String) (consulted : List IPSource) :
    Except NetError String × List IPSource :=
  if truthy rest_host then
    finalizeHost rest_host consulted
  else
    let rest_host2 := teacherResult
    let consulted2 := consulted ++ [IPSource.teacher]
    if truthy rest_host2 then
      finalizeHost rest_host2 consulted2
    else
      finalizeHost centralResult (consulted2 ++ [IPSource.central])

/-- Function `determine_external_ip_address` (networking.py lines 84-99): consult
the known-nodes sample only when `known_nodes` is non-empty, then fall
back to the teacher and the centralized service. -/
def determine_external_ip_address (urlResults : String → Option String)
    (teacherResult : Option String) (known_nodes sample : List NetPeer) :
    Except NetError String × List IPSource :=
  let centralResult := get_external_ip_from_centralized_source urlResults
  if known_nodes.isEmpty then
    cascadeFallbacks teacherResult centralResult none []
  else
    match get_external_ip_from_known_nodes urlResults known_nodes sample 3 with
    | .error e => (.error e, [IPSource.knownNodes])
    | .ok rest_host => cascadeFallbacks teacherResult centralResult rest_host [IPSource.knownNodes]

/-- The cascade as the claim describes it: the consulted sources in
order, each paired with the host it would yield.  This definition
follows the claim's words, to be compared with the embedded code. -/
def specCascadeSources (urlResults : String → Option String)
    (teacherResult : Option String) (known_nodes sample : List NetPeer) :
    List (IPSource × Option String) :=
  (if known_nodes.isEmpty then []
   else [(IPSource.knownNodes,
          firstTruthy (sample.map (fun nd => urlResults nd.rest_url)))]) ++
  [(IPSource.teacher, teacherResult),
   (IPSource.central, get_external_ip_from_centralized_source urlResults)]

/-- The claim's result: the first non-empty host of the cascade, or
`UnknownIPAddress` when every consulted source yields none. -/
def specCascadeResult (sources : List (IPSource × Option String)) : Except NetError String :=
  match firstTruthy (sources.map Prod.snd) with
  | some h => .ok h
  | none => .error .unknownIPAddress

/-- The sources the claim says are consulted: every source up to and
including the first one yielding a truthy host. -/
def expectedTrace : List (IPSource × Option String) → List IPSource
  | [] => []
  | (s, h) :: rest => if truthy h then [s] else s :: expectedTrace rest

theorem truthy_eq_true_iff (o : Option String) :
    truthy o = true ↔ ∃ s, o = some s ∧ s ≠ "" := by
  cases o with
  | none => simp [truthy]
  | some s => simp [truthy]

theorem firstTruthy_eq_none_iff (l : List (Option String)) :
    firstTruthy l = none ↔ ∀ o ∈ l, truthy o = false := by
  induction l with
  | nil => simp [firstTruthy]
  | cons o rest ih =>
    by_cases ho : truthy o
    · simp only [firstTruthy, if_pos ho]
      constructor
      · intro hnone
        rw [truthy_eq_true_iff] at ho
        obtain ⟨s, rfl, _⟩ := ho
        exact absurd hnone (by simp)
      · intro hall
        have := hall o (by simp)
        rw [this] at ho
        exact absurd ho (by simp)
    · simp only [firstTruthy, if_neg ho]
      rw [ih]
      constructor
      · intro hall p hp
        rcases List.mem_cons.mp hp with rfl | hmem
        · simpa using ho
        · exact hall p hmem
      · intro hall p hp
        exact hall p (List.mem_cons_of_mem _ hp)

theorem cascadeFallbacks_eq (t c rh : Option String) (cs : List IPSource) :
    cascadeFallbacks t c rh cs =
      ((match firstTruthy [rh, t, c] with
         | some h => Except.ok h
         | none => Except.error NetError.unknownIPAddress),
       cs ++ (if truthy rh then []
              else expectedTrace [(IPSource.teacher, t), (IPSource.central, c)])) := by
  by_cases hrh : truthy rh = true
  · obtain ⟨s, rfl, hs⟩ := (truthy_eq_true_iff rh).mp hrh
    simp [cascadeFallbacks, finalizeHost, firstTruthy, hrh, hs]
  · rw [Bool.not_eq_true] at hrh
    by_cases ht : truthy t = true
    · obtain ⟨s, rfl, hs⟩ := (truthy_eq_true_iff t).mp ht
      simp [cascadeFallbacks, finalizeHost, firstTruthy, expectedTrace, hrh, ht, hs]
    · rw [Bool.not_eq_true] at ht
      by_cases hc : truthy c = true
      · obtain ⟨s, rfl, hs⟩ := (truthy_eq_true_iff c).mp hc
        simp [cascadeFallbacks, finalizeHost, firstTruthy, expectedTrace, hrh, ht, hc, hs]
      · rw [Bool.not_eq_true] at hc
        cases c with
        | none =>
          simp [cascadeFallbacks, finalizeHost, firstTruthy, expectedTrace, hrh, ht, hc]
        | some s =>
          have hs : s = "" := by simpa [truthy] using hc
          subst hs
          simp [cascadeFallbacks, finalizeHost, firstTruthy, expectedTrace, hrh, ht, hc]

/-- C10 counterexample: with a single known node and every source
yielding no host, the function raises the `random.sample` `ValueError`
after consulting only the known-nodes source — the teacher and
centralized fallbacks are never consulted and `UnknownIPAddress` is not
raised, contradicting the claimed cascade. -/
theorem determine_ip_crashes_on_small_known_nodes :
    determine_external_ip_address (fun _ => none) none
        [NetPeer.mk "https://u1"] [NetPeer.mk "https://u1"] =
      (.error .valueError, [IPSource.knownNodes]) ∧
    NetError.valueError ≠ NetError.unknownIPAddress := by
  constructor
  · rfl
  · decide

/-- C10 (amended): provided the known-nodes list is empty or holds at
least the sample size of 3 (otherwise `random.sample` raises
`ValueError` before any query), the function consults the sources in the
fixed cascade order — known-nodes sample (only when non-empty), default
teacher, centralized service — returns the first non-empty host,
stopping the cascade there, and raises `UnknownIPAddress` exactly when
all consulted sources yield no host. -/
theorem determine_ip_cascade (urlResults : String → Option String)
    (teacherResult : Option String) (known_nodes sample : List NetPeer)
    (hkn : known_nodes = [] ∨ 3 ≤ known_nodes.length) :
    determine_external_ip_address urlResults teacherResult known_nodes sample =
      (specCascadeResult (specCascadeSources urlResults teacherResult known_nodes sample),
       expectedTrace (specCascadeSources urlResults teacherResult known_nodes sample)) ∧
    ((determine_external_ip_address urlResults teacherResult known_nodes sample).1 =
        .error .unknownIPAddress ↔
      ∀ o ∈ (specCascadeSources urlResults teacherResult known_nodes sample).map Prod.snd,
        truthy o = false) := by
  have main : determine_external_ip_address urlResults teacherResult known_nodes sample =
      (specCascadeResult (specCascadeSources urlResults teacherResult known_nodes sample),
       expectedTrace (specCascadeSources urlResults teacherResult known_nodes sample)) := by
    rcases hkn with he | h3
    · subst he
      simp only [determine_external_ip_address, List.isEmpty_nil, if_pos]
      rw [cascadeFallbacks_eq]
      simp only [specCascadeSources, specCascadeResult, List.isEmpty_nil, if_pos,
        List.nil_append, expectedTrace, firstTruthy, truthy]
      rfl
    · have hne : known_nodes.isEmpty = false := by
        cases known_nodes with
        | nil => simp at h3
        | cons a l => simp
      have hsz : ¬ known_nodes.length < 3 := by omega
      simp only [determine_external_ip_address, hne, Bool.false_eq_true, if_false,
        get_external_ip_from_known_nodes, if_neg hsz]
      rw [cascadeFallbacks_eq]
      simp only [specCascadeSources, specCascadeResult, hne, Bool.false_eq_true, if_false,
        List.cons_append, List.nil_append, List.map_cons, List.map_nil, expectedTrace,
        get_external_ip_from_url_source]
      by_cases hk : truthy (firstTruthy (sample.map fun nd => urlResults nd.rest_url)) = true
      · simp only [hk, if_pos, List.append_nil]
      · rw [Bool.not_eq_true] at hk
        simp only [hk, Bool.false_eq_true, if_false]
  refine ⟨main, ?_⟩
  have h1 : (determine_external_ip_address urlResults teacherResult known_nodes sample).1 =
      specCascadeResult (specCascadeSources urlResults teacherResult known_nodes sample) := by
    rw [main]
  rw [h1]
  unfold specCascadeResult
  cases hft : firstTruthy
      ((specCascadeSources urlResults teacherResult known_nodes sample).map Prod.snd) with
  | none =>
    simp only []
    constructor
    · intro _
      exact (firstTruthy_eq_none_iff _).mp hft
    · intro _
      trivial
  | some h =>
    simp only []
    constructor
    · intro habs
      exact absurd habs (by simp)
    · intro hall
      have := (firstTruthy_eq_none_iff _).mpr hall
      rw [hft] at this
      exact absurd this (by simp)

/-- C10 witness: three known nodes that all fail to answer, an
unresponsive teacher and a centralized service answering `1.2.3.4`: the
cascade consults all three sources in order and returns the centralized
answer. -/
theorem determine_ip_cascade_witness :
    determine_external_ip_address
        (fun u => if u == "https://ifconfig.me/" then some "1.2.3.4" else none) none
        [NetPeer.mk "https://u1", NetPeer.mk "https://u2", NetPeer.mk "https://u3"]
        [NetPeer.mk "https://u1", NetPeer.mk "https://u2", NetPeer.mk "https://u3"] =
      (specCascadeResult (specCascadeSources
          (fun u => if u == "https://ifconfig.me/" then some "1.2.3.4" else none) none
          [NetPeer.mk "https://u1", NetPeer.mk "https://u2", NetPeer.mk "https://u3"]
          [NetPeer.mk "https://u1", NetPeer.mk "https://u2", NetPeer.mk "https://u3"]),
       expectedTrace (specCascadeSources
          (fun u => if u == "https://ifconfig.me/" then some "1.2.3.4" else none) none
          [NetPeer.mk "https://u1", NetPeer.mk "https://u2", NetPeer.mk "https://u3"]
          [NetPeer.mk "https://u1", NetPeer.mk "https://u2", NetPeer.mk "https://u3"])) :=
  (determine_ip_cascade
      (fun u => if u == "https://ifconfig.me/" then some "1.2.3.4" else none) none
      [NetPeer.mk "https://u1", NetPeer.mk "https://u2", NetPeer.mk "https://u3"]
      [NetPeer.mk "https://u1", NetPeer.mk "https://u2", NetPeer.mk "https://u3"]
      (Or.inr (by decide))).1
